import Mathlib

/-!
Verification of the VTK-to-mesh pipeline of the pregnancy-app repository
(the vtkLoader family of files: src/frontend/utils/vtkLoader.js and the
variant in src/unnamed/part_000).

Modelling conventions for the shallow embedding of the JavaScript source:

* JS strings are embedded as lists of characters (JStr).
* JS numbers flowing through the parser are embedded as JsNum := Option ℚ.
  The value none models a non-finite JS number (NaN, as produced by
  parseFloat on a malformed token, or undefined read out of array bounds;
  division by zero, which yields Infinity in JS, is also mapped to none and
  is only ever reached outside the situations the theorems below describe).
  Every comparison against none is false, mirroring NaN comparisons in JS.
* parseFloat / parseInt are embedded for decimal numerals (optional sign,
  digits, optional fraction); exponent notation is not modelled — the
  repository's VTK inputs and all inputs in the claims use plain decimals.
* The check start.distanceTo(end) < 0.001 of the source is embedded on the
  squared distance as distSq < 0.001^2, which is equivalent for finite
  values since both sides are nonnegative, and avoids square roots.
-/

/-- JS string: a list of characters. -/
abbrev JStr := List Char

/-- JS number as it flows through the parser: some finite rational, or none
for a non-finite value (NaN / undefined / Infinity). -/
abbrev JsNum := Option ℚ

/-- Whitespace characters recognised by trim / parseFloat / parseInt. -/
def jsIsWs (c : Char) : Bool :=
  c = ' ' ∨ c = '\t' ∨ c = '\n' ∨ c = '\r'

/-- Embedding of String.prototype.trim: drop leading and trailing whitespace. -/
def jsTrim (s : JStr) : JStr :=
  ((s.dropWhile jsIsWs).reverse.dropWhile jsIsWs).reverse

/-- Embedding of String.prototype.startsWith. -/
def jsStartsWith (s pre : JStr) : Bool :=
  pre.isPrefixOf s

/-- Helper for jsSplit: accumulates the current token. -/
def jsSplitAux (sep : Char) : List Char → List Char → List JStr
  | [], acc => [acc.reverse]
  | c :: cs, acc =>
      if c = sep then acc.reverse :: jsSplitAux sep cs []
      else jsSplitAux sep cs (c :: acc)

/-- Embedding of String.prototype.split with a one-character separator:
empty tokens are kept, and splitting the empty string gives [""]. -/
def jsSplit (s : JStr) (sep : Char) : List JStr :=
  jsSplitAux sep s []

/-- Value of a decimal digit character, none for a non-digit. -/
def digitVal (c : Char) : Option ℕ :=
  if c = '0' then some 0 else if c = '1' then some 1 else if c = '2' then some 2
  else if c = '3' then some 3 else if c = '4' then some 4 else if c = '5' then some 5
  else if c = '6' then some 6 else if c = '7' then some 7 else if c = '8' then some 8
  else if c = '9' then some 9 else none

/-- Longest leading run of decimal digits, and the rest of the string. -/
def takeDigits : List Char → List ℕ × List Char
  | [] => ([], [])
  | c :: cs =>
      match digitVal c with
      | some d => let (ds, rest) := takeDigits cs; (d :: ds, rest)
      | none => ([], c :: cs)

/-- Natural number denoted by a list of decimal digits (most significant first). -/
def digitsToNat (ds : List ℕ) : ℕ :=
  ds.foldl (fun a d => 10 * a + d) 0

/-- Embedding of the JS global parseInt on a already-isolated token (radix 10):
skip whitespace, optional sign, then the longest leading digit run; NaN
(none) when no digit is found. parseInt stops at the first non-digit, so
for example parseInt applied to the token 3.5 yields 3. -/
def jsParseInt (s : JStr) : Option ℤ :=
  let s1 := s.dropWhile jsIsWs
  match s1 with
  | '-' :: r =>
      let (ds, _) := takeDigits r
      if ds = [] then none else some (-(digitsToNat ds : ℤ))
  | '+' :: r =>
      let (ds, _) := takeDigits r
      if ds = [] then none else some (digitsToNat ds : ℤ)
  | _ =>
      let (ds, _) := takeDigits s1
      if ds = [] then none else some (digitsToNat ds : ℤ)

/-- Rational denoted by integer digits and fraction digits. -/
def decimalValue (intDs fracDs : List ℕ) : ℚ :=
  (digitsToNat intDs : ℚ) + (digitsToNat fracDs : ℚ) / (10 : ℚ) ^ fracDs.length

/-- Embedding of the JS global parseFloat on an already-isolated token:
skip whitespace, optional sign, digits, optional dot and fraction digits;
NaN (none) when no digit is found at all. Exponent notation is not
modelled (see the file comment). -/
def jsParseFloat (s : JStr) : JsNum :=
  let s1 := s.dropWhile jsIsWs
  let signAndRest : Bool × List Char :=
    match s1 with
    | '-' :: r => (true, r)
    | '+' :: r => (false, r)
    | _ => (false, s1)
  let neg := signAndRest.1
  let (intDs, s2) := takeDigits signAndRest.2
  let fracDs : List ℕ :=
    match s2 with
    | '.' :: r => (takeDigits r).1
    | _ => []
  if intDs = [] ∧ fracDs = [] then none
  else
    let v := decimalValue intDs fracDs
    some (if neg then -v else v)

/-- JS array read at a (possibly negative) integer index: undefined (none)
out of bounds, mirroring points[idx] in the source. -/
def jsIndex (l : List JsNum) (i : ℤ) : JsNum :=
  if 0 ≤ i then (l.getD i.toNat none) else none

/-- Embedding of the falsy-coalescing read radii[idx] || 0.1 of the source:
undefined (out of bounds), NaN, and exactly 0 all fall back to the default. -/
def jsOrDefault (v : JsNum) (d : ℚ) : ℚ :=
  match v with
  | none => d
  | some x => if x = 0 then d else x

/-- Addition on JS numbers; none (non-finite) is absorbing. -/
def jsAdd (a b : JsNum) : JsNum :=
  match a, b with
  | some x, some y => some (x + y)
  | _, _ => none

/-- Subtraction on JS numbers; none is absorbing. -/
def jsSub (a b : JsNum) : JsNum :=
  match a, b with
  | some x, some y => some (x - y)
  | _, _ => none

/-- Multiplication on JS numbers; none is absorbing. -/
def jsMul (a b : JsNum) : JsNum :=
  match a, b with
  | some x, some y => some (x * y)
  | _, _ => none

/-- Division on JS numbers; division by zero yields a non-finite value
(Infinity or NaN in JS), embedded as none. -/
def jsDiv (a b : JsNum) : JsNum :=
  match a, b with
  | some x, some y => if y = 0 then none else some (x / y)
  | _, _ => none

/-- Embedding of Math.min on two values; NaN (none) is absorbing, as in JS. -/
def jsMin (a b : JsNum) : JsNum :=
  match a, b with
  | some x, some y => some (min x y)
  | _, _ => none

/-- Embedding of Math.max on two values; NaN (none) is absorbing, as in JS. -/
def jsMax (a b : JsNum) : JsNum :=
  match a, b with
  | some x, some y => some (max x y)
  | _, _ => none

/-- Embedding of a JS < comparison: false whenever either side is NaN. -/
def jsLt (a b : JsNum) : Bool :=
  match a, b with
  | some x, some y => x < y
  | _, _ => false

/-- One segment of a vascular centerline, as stored by parseVTKData in tube
mode: start and end coordinates and the two end radii. Radii are stored as
JsNum so that the same structure also serves for the scaled segments, whose
radii are multiplied by a possibly non-finite scale factor. -/
structure Seg where
  startP : JsNum × JsNum × JsNum
  endP : JsNum × JsNum × JsNum
  startRadius : JsNum
  endRadius : JsNum
deriving Repr, DecidableEq

/-- Point number i of the flat points array: the triple at offsets 3i, 3i+1,
3i+2, exactly as the source reads points[idx*3 .. idx*3+2]. -/
def pointTriple (points : List JsNum) (i : ℤ) : JsNum × JsNum × JsNum :=
  (jsIndex points (i * 3), jsIndex points (i * 3 + 1), jsIndex points (i * 3 + 2))

/-- Integer token list of a cell record line: split on spaces, drop empty
tokens, parseInt each token, drop NaN results — the exact pipeline of
parseVTKData on a connectivity line. -/
def cellIndices (line : JStr) : List ℤ :=
  (((jsSplit line ' ').filter (fun t => t ≠ ([] : JStr))).map jsParseInt).filterMap id

/-- Body of the per-j iteration of the cell loop: bounds-check both indices
against the points array and emit either six vertex coordinates (line mode)
or one segment (tube mode). -/
def cellStep (enableTubeMesh : Bool) (points radii : List JsNum)
    (idx1 idx2 : ℤ) : List JsNum × List Seg :=
  if idx1 * 3 + 2 < (points.length : ℤ) ∧ idx2 * 3 + 2 < (points.length : ℤ) then
    if enableTubeMesh then
      ([], [{ startP := pointTriple points idx1
              endP := pointTriple points idx2
              startRadius := some (jsOrDefault (jsIndex radii idx1) (1/10))
              endRadius := some (jsOrDefault (jsIndex radii idx2) (1/10)) }])
    else
      ([jsIndex points (idx1 * 3), jsIndex points (idx1 * 3 + 1),
        jsIndex points (idx1 * 3 + 2),
        jsIndex points (idx2 * 3), jsIndex points (idx2 * 3 + 1),
        jsIndex points (idx2 * 3 + 2)], [])
  else ([], [])

/-- Pushes produced by one accepted-or-rejected cell record whose integer
token list is indices: the record is processed only when it has more than
one token and its first token (the declared index count) equals the number
of remaining tokens; the loop then walks consecutive index pairs j, j+1 for
j = 1 .. cellSize-1. -/
def cellPushes (enableTubeMesh : Bool) (points radii : List JsNum)
    (indices : List ℤ) : List JsNum × List Seg :=
  if 1 < indices.length then
    let cellSize : ℤ := indices.headI
    if (indices.length : ℤ) = cellSize + 1 then
      (List.range' 1 (cellSize.toNat - 1)).foldl
        (fun acc j =>
          match indices.get? j, indices.get? (j + 1) with
          | some idx1, some idx2 =>
              let p := cellStep enableTubeMesh points radii idx1 idx2
              (acc.1 ++ p.1, acc.2 ++ p.2)
          | _, _ => acc)
        ([], [])
    else ([], [])
  else ([], [])

/-! ### The line-by-line parser state machine of parseVTKData -/

/-- Section keyword POINTS. -/
def kwPoints : JStr := "POINTS".toList

/-- Section keyword CELLS. -/
def kwCells : JStr := "CELLS".toList

/-- Section keyword POLYGONS. -/
def kwPolygons : JStr := "POLYGONS".toList

/-- Section keyword LINES. -/
def kwLines : JStr := "LINES".toList

/-- Section keyword POINT_DATA. -/
def kwPointData : JStr := "POINT_DATA".toList

/-- Section keyword SCALARS. -/
def kwScalars : JStr := "SCALARS".toList

/-- Section keyword LOOKUP_TABLE. -/
def kwLookupTable : JStr := "LOOKUP_TABLE".toList

/-- Section keyword CELL_TYPES. -/
def kwCellTypes : JStr := "CELL_TYPES".toList

/-- Mutable locals of the parsing loop of parseVTKData (vtkLoader.js). -/
structure PState where
  vertices : List JsNum
  isReadingPoints : Bool
  isReadingCells : Bool
  isReadingScalars : Bool
  points : List JsNum
  pointCount : Option ℤ
  cellCount : Option ℤ
  radii : List JsNum
  segments : List Seg
  scalarName : JStr
deriving Repr, DecidableEq

/-- Initial parser state: empty accumulators, all flags false, counts 0. -/
def initPState : PState :=
  { vertices := [], isReadingPoints := false, isReadingCells := false,
    isReadingScalars := false, points := [], pointCount := some 0,
    cellCount := some 0, radii := [], segments := [], scalarName := [] }

/-- Comparison accumulator.length < limit of the source, where the limit may
be NaN (none), in which case the JS comparison is false. -/
def ltCount (n : ℕ) (limit : Option ℤ) : Bool :=
  match limit with
  | some m => (n : ℤ) < m
  | none => false

/-- Numeric tokens of a data line: split on spaces, drop empty tokens, map
parseFloat over the rest, keeping NaN results — the source pushes them too. -/
def numberTokens (line : JStr) : List JsNum :=
  (((jsSplit line ' ').filter (fun t => t ≠ ([] : JStr))).map jsParseFloat)

/-- Does a (already trimmed) line open a connectivity section? -/
def hasConnHeader (line : JStr) : Bool :=
  jsStartsWith line kwCells ∨ jsStartsWith line kwPolygons ∨ jsStartsWith line kwLines

/-- Point-coordinate reading block: while reading points and below the
declared coordinate count, append the parsed floats of the line. -/
def pointsBlock (st : PState) (line : JStr) : PState :=
  if st.isReadingPoints ∧ ltCount st.points.length (st.pointCount.map (fun m => m * 3)) then
    { st with points := st.points ++ numberTokens line }
  else st

/-- Scalar-value reading block: while reading scalars, below the declared
point count and on a nonempty line, append the parsed floats of the line. -/
def scalarsBlock (st : PState) (line : JStr) : PState :=
  if st.isReadingScalars ∧ ltCount st.radii.length st.pointCount ∧ line ≠ [] then
    { st with radii := st.radii ++ numberTokens line }
  else st

/-- Cell-connectivity reading block: while reading cells, on a nonempty line
that is not one of the excluded section keywords, append the pushes of the
cell record. -/
def cellsBlock (enableTubeMesh : Bool) (st : PState) (line : JStr) : PState :=
  if st.isReadingCells ∧ line ≠ [] ∧ ¬jsStartsWith line kwCellTypes ∧
      ¬jsStartsWith line kwPointData ∧ ¬jsStartsWith line kwScalars ∧
      ¬jsStartsWith line kwLookupTable then
    let p := cellPushes enableTubeMesh st.points st.radii (cellIndices line)
    { st with vertices := st.vertices ++ p.1, segments := st.segments ++ p.2 }
  else st

/-- Cutoff block: stop reading cells on a CELL_TYPES or POINT_DATA line. -/
def cellCutoff (st : PState) (line : JStr) : PState :=
  if jsStartsWith line kwCellTypes ∨ jsStartsWith line kwPointData then
    { st with isReadingCells := false }
  else st

/-- Sequential reading blocks of the parsing loop for a non-header line:
the point-coordinate block, the scalar-value block, the cell-connectivity
block, and the final CELL_TYPES / POINT_DATA cutoff for cell reading. -/
def parseDataLine (enableTubeMesh : Bool) (st : PState) (line : JStr) : PState :=
  cellCutoff (cellsBlock enableTubeMesh (scalarsBlock (pointsBlock st line) line) line) line

/-- One iteration of the parsing loop of parseVTKData over a raw line: the
section-header branches (each of which ends in continue in the source),
followed by the sequential reading blocks (parseDataLine). -/
def parseLine (enableTubeMesh : Bool) (st : PState) (rawLine : JStr) : PState :=
  let line := jsTrim rawLine
  if jsStartsWith line kwPoints then
    let parts := jsSplit line ' '
    { st with pointCount := (parts.get? 1).bind jsParseInt,
              isReadingPoints := true, isReadingCells := false }
  else if hasConnHeader line then
    let parts := jsSplit line ' '
    { st with cellCount := if 1 < parts.length then (parts.get? 1).bind jsParseInt
                           else st.cellCount,
              isReadingPoints := false, isReadingCells := true,
              isReadingScalars := false }
  else if jsStartsWith line kwPointData then
    { st with isReadingPoints := false, isReadingCells := false,
              isReadingScalars := false }
  else if jsStartsWith line kwScalars then
    let parts := jsSplit line ' '
    { st with scalarName := if 1 < parts.length then parts.getD 1 [] else st.scalarName,
              isReadingPoints := false, isReadingCells := false,
              isReadingScalars := false }
  else if jsStartsWith line kwLookupTable then
    { st with isReadingScalars := if st.scalarName ≠ [] then true else st.isReadingScalars,
              isReadingPoints := false, isReadingCells := false }
  else
    parseDataLine enableTubeMesh st line

/-- Final parser state after the loop over all lines of the file body. -/
def parseVTKState (body : JStr) (enableTubeMesh : Bool) : PState :=
  (jsSplit body '\n').foldl (parseLine enableTubeMesh) initPState

/-! ### Bounding box, centering and uniform scaling -/

/-- Triple of JS numbers: one 3D vertex. -/
abbrev Triple := JsNum × JsNum × JsNum

/-- Componentwise Math.min of two vertices (Box3.expandByPoint). -/
def minT (a b : Triple) : Triple :=
  (jsMin a.1 b.1, jsMin a.2.1 b.2.1, jsMin a.2.2 b.2.2)

/-- Componentwise Math.max of two vertices (Box3.expandByPoint). -/
def maxT (a b : Triple) : Triple :=
  (jsMax a.1 b.1, jsMax a.2.1 b.2.1, jsMax a.2.2 b.2.2)

/-- Group a flat coordinate buffer into vertex triples; an incomplete tail
(which never arises from the parser, whose pushes come in multiples of 3) is
ignored, as a BufferAttribute of item size 3 ignores leftover floats. -/
def toTriples : List JsNum → List Triple
  | x :: y :: z :: rest => (x, y, z) :: toTriples rest
  | _ => []

/-- Flat coordinate buffer of a list of vertex triples. -/
def flattenTriples : List Triple → List JsNum
  | [] => []
  | v :: vs => v.1 :: v.2.1 :: v.2.2 :: flattenTriples vs

/-- Axis-aligned bounding box (min corner, max corner) of a vertex list, as
computed by geometry.computeBoundingBox. The empty case (never consulted by
the code paths modelled here) has no finite corners. -/
def bboxMinMax (ts : List Triple) : Triple × Triple :=
  match ts with
  | [] => ((none, none, none), (none, none, none))
  | t :: tr => (tr.foldl minT t, tr.foldl maxT t)

/-- Box center as in Box3.getCenter: (min + max) * 0.5 componentwise. -/
def centerT (mn mx : Triple) : Triple :=
  (jsMul (jsAdd mn.1 mx.1) (some (1/2)),
   jsMul (jsAdd mn.2.1 mx.2.1) (some (1/2)),
   jsMul (jsAdd mn.2.2 mx.2.2) (some (1/2)))

/-- Box size as in Box3.getSize: max - min componentwise. -/
def sizeT (mn mx : Triple) : Triple :=
  (jsSub mx.1 mn.1, jsSub mx.2.1 mn.2.1, jsSub mx.2.2 mn.2.2)

/-- Largest dimension Math.max(size.x, size.y, size.z). -/
def maxDim3 (s : Triple) : JsNum :=
  jsMax (jsMax s.1 s.2.1) s.2.2

/-- Bounding-box center of a flat coordinate buffer. -/
def bboxCenter (l : List JsNum) : Triple :=
  centerT (bboxMinMax (toTriples l)).1 (bboxMinMax (toTriples l)).2

/-- Largest bounding-box dimension of a flat coordinate buffer. -/
def bboxMaxDim (l : List JsNum) : JsNum :=
  maxDim3 (sizeT (bboxMinMax (toTriples l)).1 (bboxMinMax (toTriples l)).2)

/-- Transform of one vertex by geometry.translate(-center) followed by
geometry.scale(s, s, s): componentwise (v - c) * s. -/
def transT (c : Triple) (s : JsNum) (v : Triple) : Triple :=
  (jsMul (jsSub v.1 c.1) s, jsMul (jsSub v.2.1 c.2.1) s, jsMul (jsSub v.2.2 c.2.2) s)

/-- Embedding of the center-and-scale transform applied to the un-batched
line-segment buffer in parseVTKData: compute the bounding box, translate the
geometry so the box center moves to the origin, then scale uniformly by
modelSize / maxDim (a zero maxDim gives a non-finite scale, as in JS). On a
buffer with no complete triple the transform touches nothing. -/
def bboxTransform (modelSize : ℚ) (ts : List Triple) (verts : List JsNum) : List JsNum :=
  match ts with
  | [] => verts
  | t :: tr =>
      let mn := tr.foldl minT t
      let mx := tr.foldl maxT t
      let c := centerT mn mx
      let s := jsDiv (some modelSize) (maxDim3 (sizeT mn mx))
      flattenTriples ((t :: tr).map (transT c s)) ++ verts.drop (3 * (t :: tr).length)

/-- Center-and-scale entry point on a flat buffer: transform the complete
vertex triples of the buffer (see bboxTransform). -/
def centerScale (modelSize : ℚ) (verts : List JsNum) : List JsNum :=
  bboxTransform modelSize (toTriples verts) verts

/-! ### The parse result and the public load entry point -/

/-- Scaling of one tube segment by the tube branch of parseVTKData: both end
points are centered and scaled, both radii are multiplied by the scale. -/
def scaleSeg (c : Triple) (s : JsNum) (seg : Seg) : Seg :=
  { startP := transT c s seg.startP, endP := transT c s seg.endP,
    startRadius := jsMul seg.startRadius s, endRadius := jsMul seg.endRadius s }

/-- Flat list of all segment end points, as built into allPoints by the tube
branch of parseVTKData. -/
def segFlatPoints : List Seg → List JsNum
  | [] => []
  | s :: ss =>
      s.startP.1 :: s.startP.2.1 :: s.startP.2.2 ::
      s.endP.1 :: s.endP.2.1 :: s.endP.2.2 :: segFlatPoints ss

/-- Return value of parseVTKData: geometry (a flat position buffer, absent on
the tube path), the point-cloud flag, and the optional segment list and radii
of the tube path. -/
structure ParseOutput where
  geometry : Option (List JsNum)
  isPointCloud : Bool
  segments : Option (List Seg)
  radii : Option (List JsNum)
deriving Repr, DecidableEq

/-- Embedding of parseVTKData (vtkLoader.js): run the parsing loop, then
return, in this order, the scaled tube segments when tube rendering is on
and segments exist, else the raw-point fallback when no line segments were
created but points exist, else the centered-and-scaled line-segment buffer. -/
def parseVTKData (body : JStr) (modelSize : ℚ) (enableTubeMesh : Bool) : ParseOutput :=
  let st := parseVTKState body enableTubeMesh
  if enableTubeMesh ∧ st.segments ≠ [] then
    let b := bboxMinMax (toTriples (segFlatPoints st.segments))
    let c := centerT b.1 b.2
    let s := jsDiv (some modelSize) (maxDim3 (sizeT b.1 b.2))
    { geometry := none, isPointCloud := false,
      segments := some (st.segments.map (scaleSeg c s)),
      radii := if st.radii ≠ [] then some st.radii else none }
  else if st.vertices = [] ∧ st.points ≠ [] then
    { geometry := some st.points, isPointCloud := true,
      segments := none, radii := none }
  else
    { geometry := some (centerScale modelSize st.vertices), isPointCloud := false,
      segments := none, radii := none }

/-- HTTP response as seen by fetchVTKFile. -/
structure JsResponse where
  ok : Bool
  status : ℕ
  statusText : JStr
  body : JStr

/-- JS Error value: only the message is observable through the public API. -/
structure JsError where
  message : JStr
deriving Repr, DecidableEq

/-- Message of the error thrown on a non-ok response, template
HTTP status colon statusText. -/
def httpErrorMessage (status : ℕ) (statusText : JStr) : JStr :=
  ("HTTP ".toList) ++ (Nat.toDigits 10 status) ++ (": ".toList) ++ statusText

/-- Embedding of fetchVTKFile: a non-ok response throws (models the JS throw
as Except.error), an ok response yields the body text. -/
def fetchVTKFile (resp : JsResponse) : Except JsError JStr :=
  if resp.ok = false then
    Except.error { message := httpErrorMessage resp.status resp.statusText }
  else Except.ok resp.body

/-- Mesh object handed to the scene: point cloud, line segments, or the group
of tube meshes (whose per-segment geometry is treated downstream by the tube
synthesis functions modelled further below). -/
inductive VTKMesh where
  | points (geometry : List JsNum)
  | lineSegments (geometry : List JsNum)
  | tubeGroup (segments : List Seg)
deriving Repr, DecidableEq

/-- Embedding of createVTKMesh: a Points object for the point-cloud fallback,
a LineSegments object otherwise. -/
def createVTKMesh (geometry : Option (List JsNum)) (isPointCloud : Bool) : VTKMesh :=
  if isPointCloud then VTKMesh.points (geometry.getD [])
  else VTKMesh.lineSegments (geometry.getD [])

/-- Outcome of loadVTKFile: the success object with its mesh and point-cloud
flag, or the structured failure object carrying the caught error. -/
inductive LoadResult where
  | success (mesh : VTKMesh) (isPointCloud : Bool)
  | failure (error : JsError)
deriving Repr, DecidableEq

/-- Embedding of loadVTKFile: fetch, parse, build the mesh, and return the
success object; any thrown error (here: the fetch failure) is caught by the
surrounding try/catch and returned as a structured failure, so the function
is total and never propagates an exception to the caller. -/
def loadVTKFile (resp : JsResponse) (modelSize : ℚ) (enableTubeMesh : Bool) : LoadResult :=
  match fetchVTKFile resp with
  | Except.error e => LoadResult.failure e
  | Except.ok body =>
      let pr := parseVTKData body modelSize enableTubeMesh
      let mesh :=
        if enableTubeMesh ∧ pr.segments.isSome ∧ pr.radii.isSome then
          VTKMesh.tubeGroup (pr.segments.getD [])
        else createVTKMesh pr.geometry pr.isPointCloud
      LoadResult.success mesh pr.isPointCloud

/-! ### Tube synthesis (createVariableRadiusTube and the merged-geometry path) -/

/-- Squared distance between two vertices. The source compares
start.distanceTo(end) < 0.001; here every such comparison is made on the
squared distance against 0.001^2, which is equivalent for finite values. -/
def distSqT (a b : Triple) : JsNum :=
  jsAdd
    (jsAdd (jsMul (jsSub b.1 a.1) (jsSub b.1 a.1))
           (jsMul (jsSub b.2.1 a.2.1) (jsSub b.2.1 a.2.1)))
    (jsMul (jsSub b.2.2 a.2.2) (jsSub b.2.2 a.2.2))

/-- Midpoint of a segment, (start + end) * 0.5 componentwise. -/
def midT (a b : Triple) : Triple :=
  (jsMul (jsAdd a.1 b.1) (some (1/2)),
   jsMul (jsAdd a.2.1 b.2.1) (some (1/2)),
   jsMul (jsAdd a.2.2 b.2.2) (some (1/2)))

/-- Parameters of the CylinderGeometry built for one segment: top radius (at
the end point), bottom radius (at the start point), squared height (the
squared segment length), radial segment count, and the midpoint the frustum
is moved to. The rotation aligning the cylinder axis with the segment
direction is not modelled; no claim concerns the orientation. -/
structure TubeGeom where
  radiusTop : JsNum
  radiusBottom : JsNum
  heightSq : JsNum
  radialSegments : ℕ
  midpoint : Triple
deriving Repr, DecidableEq

/-- Embedding of createVariableRadiusTube: return null (none) for a
degenerate segment — length below 0.001, or both radii below 0.001 — and
otherwise the tapered-cylinder geometry for the segment. -/
def createVariableRadiusTube (startP endP : Triple) (startRadius endRadius : JsNum)
    (radialSegments : ℕ) : Option TubeGeom :=
  if jsLt (distSqT startP endP) (some (1/1000000)) ∨
      (jsLt startRadius (some (1/1000)) ∧ jsLt endRadius (some (1/1000))) then
    none
  else
    some { radiusTop := endRadius, radiusBottom := startRadius,
           heightSq := distSqT startP endP, radialSegments := radialSegments,
           midpoint := midT startP endP }

/-- Embedding of the per-segment body of createMergedTubeGeometry: skip the
segment when its length is below 0.001, scale both radii by the configured
tubeRadiusScale, skip when the larger scaled radius is below 0.001, and
otherwise collect the geometry built by createVariableRadiusTube with at
least 3 radial segments. -/
def segmentTubeContribution (tubeRadiusScale : ℚ) (tubeSegments : ℕ) (seg : Seg) :
    List TubeGeom :=
  if jsLt (distSqT seg.startP seg.endP) (some (1/1000000)) then []
  else
    let sr := jsMul seg.startRadius (some tubeRadiusScale)
    let er := jsMul seg.endRadius (some tubeRadiusScale)
    if jsLt (jsMax sr er) (some (1/1000)) then []
    else
      (createVariableRadiusTube seg.startP seg.endP sr er (max 3 tubeSegments)).toList

/-- Embedding of createMergedTubeGeometry: the geometries collected over all
segments of a batch (their merge into one buffer is the subject of
manualMergeGeometries below). -/
def createMergedTubeGeometry (tubeRadiusScale : ℚ) (tubeSegments : ℕ)
    (segs : List Seg) : List TubeGeom :=
  (segs.map (segmentTubeContribution tubeRadiusScale tubeSegments)).flatten

/-! ### Adaptive performance controller and LOD configuration -/

/-- One LOD variant: activation distance (none models the JS Infinity of the
farthest variant), radial segment count, and radius scale. -/
structure LodLevel where
  distance : Option ℚ
  segments : ℤ
  radiusScale : ℚ
deriving Repr, DecidableEq

/-- Initial lodLevels list of the VTKLoader constructor. -/
def initialLodLevels : List LodLevel :=
  [ { distance := some 50, segments := 8, radiusScale := 1 },
    { distance := some 150, segments := 6, radiusScale := 8/10 },
    { distance := some 400, segments := 4, radiusScale := 6/10 },
    { distance := none, segments := 3, radiusScale := 4/10 } ]

/-- Loader fields touched by the performance controller. -/
structure LoaderState where
  performanceMode : String
  lodLevels : List LodLevel
  maxSegmentsPerBatch : ℤ
deriving Repr, DecidableEq

/-- Loader state as set up by the constructor: auto mode, the initial LOD
list, batches of 1000 segments. -/
def initialLoaderState : LoaderState :=
  { performanceMode := "auto", lodLevels := initialLodLevels,
    maxSegmentsPerBatch := 1000 }

/-- Degrade step applied to one LOD variant when quality is lowered:
segments becomes max(3, floor(segments * 0.7)) and the radius scale is
multiplied by 0.8. -/
def degradeLevel (l : LodLevel) : LodLevel :=
  { l with segments := max 3 ⌊(l.segments : ℚ) * (7/10)⌋,
           radiusScale := l.radiusScale * (8/10) }

/-- Improve step applied to one LOD variant when quality is raised: segments
becomes min(8, floor(segments * 1.1)) and the radius scale becomes
min(1.0, radiusScale * 1.05). -/
def improveLevel (l : LodLevel) : LodLevel :=
  { l with segments := min 8 ⌊(l.segments : ℚ) * (11/10)⌋,
           radiusScale := min 1 (l.radiusScale * (105/100)) }

/-- Embedding of adjustPerformanceMode. The smoothed frame rate and the
low-frame counter are read from the performance monitor; they are passed
here as arguments. Outside auto mode the method returns immediately. -/
def adjustPerformanceMode (st : LoaderState) (fps : ℚ) (lowFrameCount : ℤ) :
    LoaderState :=
  if st.performanceMode ≠ "auto" then st
  else if fps < 20 ∨ 10 < lowFrameCount then
    { st with lodLevels := st.lodLevels.map degradeLevel,
              maxSegmentsPerBatch := max 500 ⌊(st.maxSegmentsPerBatch : ℚ) * (8/10)⌋ }
  else if 45 < fps ∧ lowFrameCount = 0 then
    { st with lodLevels := st.lodLevels.map improveLevel,
              maxSegmentsPerBatch := min 2000 ⌊(st.maxSegmentsPerBatch : ℚ) * (11/10)⌋ }
  else st

/-- Fixed lodLevels preset of the high performance mode. -/
def highLodLevels : List LodLevel :=
  [ { distance := some 50, segments := 8, radiusScale := 1 },
    { distance := some 150, segments := 6, radiusScale := 9/10 },
    { distance := some 400, segments := 4, radiusScale := 7/10 },
    { distance := none, segments := 3, radiusScale := 5/10 } ]

/-- Fixed lodLevels preset of the medium performance mode. -/
def mediumLodLevels : List LodLevel :=
  [ { distance := some 50, segments := 6, radiusScale := 9/10 },
    { distance := some 150, segments := 4, radiusScale := 7/10 },
    { distance := some 400, segments := 3, radiusScale := 5/10 },
    { distance := none, segments := 3, radiusScale := 3/10 } ]

/-- Fixed lodLevels preset of the low performance mode. -/
def lowLodLevels : List LodLevel :=
  [ { distance := some 50, segments := 4, radiusScale := 7/10 },
    { distance := some 150, segments := 3, radiusScale := 5/10 },
    { distance := some 400, segments := 3, radiusScale := 3/10 },
    { distance := none, segments := 3, radiusScale := 2/10 } ]

/-- Embedding of setPerformanceMode: record the mode, and when it is one of
the three explicit presets replace the LOD list and the batch size by the
preset values (any other mode, including auto, changes only the mode). -/
def setPerformanceMode (st : LoaderState) (mode : String) : LoaderState :=
  let st1 := { st with performanceMode := mode }
  if mode = "high" then
    { st1 with lodLevels := highLodLevels, maxSegmentsPerBatch := 1500 }
  else if mode = "medium" then
    { st1 with lodLevels := mediumLodLevels, maxSegmentsPerBatch := 1000 }
  else if mode = "low" then
    { st1 with lodLevels := lowLodLevels, maxSegmentsPerBatch := 500 }
  else st1

/-- Embedding of updatePerformanceMonitor on one frame of duration deltaTime
milliseconds: exponential smoothing of the frame rate with weights 0.9 / 0.1
and the saturating low-frame counter (incremented below 30 fps, decremented
towards 0 otherwise). -/
def updatePerformanceMonitor (frameRate : ℚ) (lowFrameCount : ℤ) (deltaTime : ℚ) :
    ℚ × ℤ :=
  if 0 < deltaTime then
    let currentFPS := 1000 / deltaTime
    (frameRate * (9/10) + currentFPS * (1/10),
     if currentFPS < 30 then lowFrameCount + 1
     else if 0 < lowFrameCount then lowFrameCount - 1
     else lowFrameCount)
  else (frameRate, lowFrameCount)

/-- Loader states reachable from the constructor state through the public
mutators of the LOD configuration: setPerformanceMode calls and
adjustPerformanceMode ticks with arbitrary monitor readings. -/
inductive ReachableLoaderState : LoaderState → Prop
  | init : ReachableLoaderState initialLoaderState
  | set (st : LoaderState) (mode : String) :
      ReachableLoaderState st → ReachableLoaderState (setPerformanceMode st mode)
  | adjust (st : LoaderState) (fps : ℚ) (cnt : ℤ) :
      ReachableLoaderState st → ReachableLoaderState (adjustPerformanceMode st fps cnt)

/-- Strict order on activation distances, where none models Infinity. -/
def distLt : Option ℚ → Option ℚ → Prop
  | some a, some b => a < b
  | some _, none => True
  | none, _ => False

/-- Adjacent-variant ordering: activation distance strictly increases while
segment count and radius scale do not increase. -/
def lodStepOk (a b : LodLevel) : Prop :=
  distLt a.distance b.distance ∧ b.segments ≤ a.segments ∧
    b.radiusScale ≤ a.radiusScale

/-- Monotonicity invariant over an ordered LOD variant list. -/
def lodOrdered (ls : List LodLevel) : Prop :=
  List.Chain' lodStepOk ls

/-! ### Pressure-to-color mapping (part_000) -/

/-- Normalization of a pressure value to the observed range, as computed by
pressureToColor: (p - min) / (max - min) when max > min, and the fixed
default 0.5 otherwise (in particular whenever min = max). -/
noncomputable def pressureLinear (pressure minPressure maxPressure : ℝ) : ℝ :=
  if minPressure < maxPressure then
    (pressure - minPressure) / (maxPressure - minPressure)
  else 0.5

/-- Embedding of pressureToColor: normalize, apply the fixed power curve with
exponent 0.4, then pick the color on the two-segment gradient — green to
orange below t = 0.5, orange to dark red above. The result is the (r, g, b)
triple of the THREE.Color built by the function. -/
noncomputable def pressureToColor (pressure minPressure maxPressure : ℝ) : ℝ × ℝ × ℝ :=
  let t := (pressureLinear pressure minPressure maxPressure) ^ (0.4 : ℝ)
  if t < 0.5 then
    let factor := t * 2
    (0.23 + factor * 0.75, 0.70 + factor * 0.23, 0.27 - factor * 0.27)
  else
    let factor := (t - 0.5) * 2
    (0.98 - factor * 0.42, 0.93 - factor * 0.81, 0)

/-! ### Manual geometry merging (manualMergeGeometries) -/

/-- Buffer geometry as consumed by manualMergeGeometries: optional position
and normal attributes (flat float arrays) and an optional index array. -/
structure BufGeom where
  position : Option (List ℚ)
  normal : Option (List ℚ)
  index : Option (List ℕ)
deriving Repr, DecidableEq

/-- Vertex count of a geometry: attribute length over the item size 3, zero
when the position attribute is absent. -/
def vertCount (g : BufGeom) : ℕ :=
  match g.position with
  | some p => p.length / 3
  | none => 0

/-- Index count of a geometry, zero when it has no index. -/
def idxLen (g : BufGeom) : ℕ :=
  match g.index with
  | some l => l.length
  | none => 0

/-- Total vertex count over all geometries, as accumulated by the first loop
of manualMergeGeometries. -/
def totalVertices (gs : List BufGeom) : ℕ :=
  (gs.map vertCount).sum

/-- Total index count over all geometries, as accumulated by the first loop
of manualMergeGeometries. -/
def totalIndices (gs : List BufGeom) : ℕ :=
  (gs.map idxLen).sum

/-- Index data written by the second loop of manualMergeGeometries, starting
from a given cumulative vertex offset. A geometry without a position
attribute is skipped entirely (its index is never written and it advances no
offset). With wrap true each stored value is truncated modulo 2^16, as
storing into the Uint16Array does; with wrap false the untruncated reference
values are produced instead. -/
def mergedIndicesAux (wrap : Bool) : List BufGeom → ℕ → List ℕ
  | [], _ => []
  | g :: gs, off =>
      match g.position with
      | none => mergedIndicesAux wrap gs off
      | some p =>
          (match g.index with
           | some idx => idx.map (fun i => if wrap then (i + off) % 65536 else i + off)
           | none => []) ++ mergedIndicesAux wrap gs (off + p.length / 3)

/-- Content of the merged Uint16 index array: the written values followed by
the zeros the preallocated array keeps in any slot never written (which
happens exactly when a geometry carries an index but no position). -/
def mergedIndices (gs : List BufGeom) : List ℕ :=
  let w := mergedIndicesAux true gs 0
  w ++ List.replicate (totalIndices gs - w.length) 0

/-- Reference index array with the cumulative offsets applied but no 16-bit
truncation, used to compare against the Uint16 content. -/
def mergedIndicesNoWrap (gs : List BufGeom) : List ℕ :=
  let w := mergedIndicesAux false gs 0
  w ++ List.replicate (totalIndices gs - w.length) 0

/-- Position buffer written by manualMergeGeometries: the concatenation of
the position attributes in order (for well-formed geometries, whose
attribute lengths are multiples of 3, this is exactly the Float32Array the
function fills; an ill-formed length would make the JS code throw while
filling the undersized array). -/
def mergedPositions : List BufGeom → List ℚ
  | [] => []
  | g :: gs => (g.position.getD []) ++ mergedPositions gs

/-- Vertex triple with plain rational coordinates wrapped as finite JS
numbers, used to state theorems about NaN-free buffers. -/
def someTriple (v : ℚ × ℚ × ℚ) : Triple :=
  (some v.1, some v.2.1, some v.2.2)

/-- Flat finite coordinate buffer of a list of rational vertices. -/
def embedTriples (l : List (ℚ × ℚ × ℚ)) : List JsNum :=
  flattenTriples (l.map someTriple)

/-- Componentwise minimum of finite vertices (the NaN-free shadow of minT). -/
def qminT (a b : ℚ × ℚ × ℚ) : ℚ × ℚ × ℚ :=
  (min a.1 b.1, min a.2.1 b.2.1, min a.2.2 b.2.2)

/-- Componentwise maximum of finite vertices (the NaN-free shadow of maxT). -/
def qmaxT (a b : ℚ × ℚ × ℚ) : ℚ × ℚ × ℚ :=
  (max a.1 b.1, max a.2.1 b.2.1, max a.2.2 b.2.2)

/-- Translate-then-scale transform on finite vertices (the NaN-free shadow
of transT): componentwise (v - c) * s. -/
def qtransT (c : ℚ × ℚ × ℚ) (s : ℚ) (v : ℚ × ℚ × ℚ) : ℚ × ℚ × ℚ :=
  ((v.1 - c.1) * s, (v.2.1 - c.2.1) * s, (v.2.2 - c.2.2) * s)

/-!
## Theorems for the claims

Each claim of the specification is settled by exactly one theorem below
(plus, where needed, a closed witness or counterexample).
-/

/-- C1: a cell record is processed only when its integer token count equals
the declared count plus one. First conjunct: a record whose token list
starts with n and does not have exactly n+1 tokens emits nothing — neither
vertices nor segments. Second conjunct: the accepted record [3, 0, 1, 2]
(on a points array holding at least three points) emits exactly the two
segments joining point 0 to point 1 and point 1 to point 2. Third conjunct:
the mismatched record [3, 0, 1] emits zero vertices and zero segments. -/
theorem cellRecord_count_gate (enableTubeMesh : Bool) (points radii : List JsNum)
    (n : ℤ) (rest : List ℤ) (pts9 : 9 ≤ points.length) :
    (((n :: rest).length : ℤ) ≠ n + 1 →
      cellPushes enableTubeMesh points radii (n :: rest) = ([], [])) ∧
    cellPushes true points radii [3, 0, 1, 2] =
      ([], [{ startP := pointTriple points 0, endP := pointTriple points 1,
              startRadius := some (jsOrDefault (jsIndex radii 0) (1/10)),
              endRadius := some (jsOrDefault (jsIndex radii 1) (1/10)) },
            { startP := pointTriple points 1, endP := pointTriple points 2,
              startRadius := some (jsOrDefault (jsIndex radii 1) (1/10)),
              endRadius := some (jsOrDefault (jsIndex radii 2) (1/10)) }]) ∧
    cellPushes enableTubeMesh points radii [3, 0, 1] = ([], []) := by
  refine ⟨?_, ?_, ?_⟩
  · intro hne
    unfold cellPushes
    by_cases h1 : 1 < (n :: rest).length
    · simp only [h1, if_true, List.headI]
      rw [if_neg hne]
    · rw [if_neg h1]
  · have h2 : (2 : ℤ) < (points.length : ℤ) := by
      have := pts9; omega
    have h5 : (5 : ℤ) < (points.length : ℤ) := by
      have := pts9; omega
    have h8 : (8 : ℤ) < (points.length : ℤ) := by
      have := pts9; omega
    unfold cellPushes
    norm_num [List.headI, List.range', cellStep, pointTriple, h2, h5, h8]
  · rfl

/-- Witness for C1: the theorem applied to a concrete nine-entry points
array, yielding the rejection of the mismatched record [3, 0, 1]. -/
theorem cellRecord_count_gate_witness :
    cellPushes true (List.replicate 9 (some 0)) [] [3, 0, 1] = ([], []) :=
  (cellRecord_count_gate true (List.replicate 9 (some 0)) [] 3 [0, 1]
    (by decide)).2.2

/-- C2 counterexample: the claim extends the degenerate-segment drop to line
mode, but the line-mode path of parseVTKData has no length check. Parsing a
file with two identical points and the single cell [2, 0, 1] — one segment
of length exactly 0 — in line mode produces a line-segment buffer with 6
coordinates (the two endpoint vertices of the degenerate segment), not an
empty one, and no point-cloud fallback is taken. -/
theorem degenerate_segment_emitted_in_line_mode :
    ((parseVTKData ("POINTS 2 float\n0 0 0\n0 0 0\nLINES 1 3\n2 0 1".toList)
        420 false).geometry.getD []).length = 6 ∧
    (parseVTKData ("POINTS 2 float\n0 0 0\n0 0 0\nLINES 1 3\n2 0 1".toList)
        420 false).isPointCloud = false := by
  exact ⟨rfl, rfl⟩

/-- C2 amended: in tube/cylinder mode the degenerate drop does hold — a
segment whose squared length is below 0.001^2 yields null from
createVariableRadiusTube whatever its radii are, and contributes nothing to
the merged tube geometry of its batch; in particular a segment with
identical finite start and end coordinates never produces tube geometry.
(In line mode such a segment is still emitted, per the counterexample.) -/
theorem degenerate_segment_dropped_in_tube_mode
    (startP endP : Triple) (r1 r2 : JsNum) (nseg : ℕ)
    (scale : ℚ) (tsegs : ℕ) (s : Seg)
    (hlen : jsLt (distSqT startP endP) (some (1/1000000)) = true)
    (hlen2 : jsLt (distSqT s.startP s.endP) (some (1/1000000)) = true) :
    createVariableRadiusTube startP endP r1 r2 nseg = none ∧
    segmentTubeContribution scale tsegs s = [] ∧
    (∀ p : ℚ × ℚ × ℚ, ∀ q1 q2 : JsNum, ∀ m : ℕ,
      createVariableRadiusTube (someTriple p) (someTriple p) q1 q2 m = none) := by
  refine ⟨?_, ?_, ?_⟩
  · unfold createVariableRadiusTube
    rw [if_pos]
    left
    exact hlen
  · unfold segmentTubeContribution
    rw [if_pos hlen2]
  · intro p q1 q2 m
    unfold createVariableRadiusTube
    rw [if_pos]
    left
    show jsLt (distSqT (someTriple p) (someTriple p)) (some (1/1000000)) = true
    norm_num [distSqT, someTriple, jsSub, jsMul, jsAdd, jsLt]

/-- Witness for the amended C2: a concrete zero-length segment with radius 1
at both ends produces no tube geometry and no contribution. -/
theorem degenerate_segment_dropped_in_tube_mode_witness :
    createVariableRadiusTube (some 2, some 3, some 4) (some 2, some 3, some 4)
      (some 1) (some 1) 8 = none :=
  (degenerate_segment_dropped_in_tube_mode (some 2, some 3, some 4)
    (some 2, some 3, some 4) (some 1) (some 1) 8 1 8
    { startP := (some 0, some 0, some 0), endP := (some 0, some 0, some 0),
      startRadius := some 1, endRadius := some 1 }
    (by norm_num [distSqT, jsSub, jsMul, jsAdd, jsLt])
    (by norm_num [distSqT, jsSub, jsMul, jsAdd, jsLt])).1

/-! Helper lemmas about the bounding-box fold on NaN-free buffers. -/

theorem toTriples_flattenTriples (ts : List Triple) :
    toTriples (flattenTriples ts) = ts := by
  induction ts with
  | nil => rfl
  | cons v vs ih => simp [flattenTriples, toTriples, ih]

theorem flattenTriples_length (ts : List Triple) :
    (flattenTriples ts).length = 3 * ts.length := by
  induction ts with
  | nil => rfl
  | cons v vs ih =>
      simp only [flattenTriples, List.length_cons, ih]
      omega

theorem minT_someTriple (a b : ℚ × ℚ × ℚ) :
    minT (someTriple a) (someTriple b) = someTriple (qminT a b) := by
  simp [minT, someTriple, qminT, jsMin]

theorem maxT_someTriple (a b : ℚ × ℚ × ℚ) :
    maxT (someTriple a) (someTriple b) = someTriple (qmaxT a b) := by
  simp [maxT, someTriple, qmaxT, jsMax]

theorem foldl_minT_some (l : List (ℚ × ℚ × ℚ)) :
    ∀ t : ℚ × ℚ × ℚ,
      (l.map someTriple).foldl minT (someTriple t) = someTriple (l.foldl qminT t) := by
  induction l with
  | nil => intro t; rfl
  | cons a as ih => intro t; simp only [List.map_cons, List.foldl_cons, minT_someTriple, ih]

theorem foldl_maxT_some (l : List (ℚ × ℚ × ℚ)) :
    ∀ t : ℚ × ℚ × ℚ,
      (l.map someTriple).foldl maxT (someTriple t) = someTriple (l.foldl qmaxT t) := by
  induction l with
  | nil => intro t; rfl
  | cons a as ih => intro t; simp only [List.map_cons, List.foldl_cons, maxT_someTriple, ih]

theorem transT_someTriple (c v : ℚ × ℚ × ℚ) (s : ℚ) :
    transT (someTriple c) (some s) (someTriple v) = someTriple (qtransT c s v) := by
  simp [transT, someTriple, qtransT, jsSub, jsMul]

theorem qminT_qtransT (c t a : ℚ × ℚ × ℚ) (s : ℚ) (hs : 0 ≤ s) :
    qminT (qtransT c s t) (qtransT c s a) = qtransT c s (qminT t a) := by
  simp only [qminT, qtransT, Prod.mk.injEq]
  refine ⟨?_, ?_, ?_⟩ <;> rw [← min_mul_of_nonneg _ _ hs, min_sub_sub_right]

theorem qmaxT_qtransT (c t a : ℚ × ℚ × ℚ) (s : ℚ) (hs : 0 ≤ s) :
    qmaxT (qtransT c s t) (qtransT c s a) = qtransT c s (qmaxT t a) := by
  simp only [qmaxT, qtransT, Prod.mk.injEq]
  refine ⟨?_, ?_, ?_⟩ <;> rw [← max_mul_of_nonneg _ _ hs, max_sub_sub_right]

theorem foldl_qminT_affine (c : ℚ × ℚ × ℚ) (s : ℚ) (hs : 0 ≤ s) (l : List (ℚ × ℚ × ℚ)) :
    ∀ t : ℚ × ℚ × ℚ,
      (l.map (qtransT c s)).foldl qminT (qtransT c s t) =
        qtransT c s (l.foldl qminT t) := by
  induction l with
  | nil => intro t; rfl
  | cons a as ih =>
      intro t
      simp only [List.map_cons, List.foldl_cons, qminT_qtransT c t a s hs, ih]

theorem foldl_qmaxT_affine (c : ℚ × ℚ × ℚ) (s : ℚ) (hs : 0 ≤ s) (l : List (ℚ × ℚ × ℚ)) :
    ∀ t : ℚ × ℚ × ℚ,
      (l.map (qtransT c s)).foldl qmaxT (qtransT c s t) =
        qtransT c s (l.foldl qmaxT t) := by
  induction l with
  | nil => intro t; rfl
  | cons a as ih =>
      intro t
      simp only [List.map_cons, List.foldl_cons, qmaxT_qtransT c t a s hs, ih]

theorem toTriples_embedTriples (l : List (ℚ × ℚ × ℚ)) :
    toTriples (embedTriples l) = l.map someTriple := by
  simp [embedTriples, toTriples_flattenTriples]

theorem embedTriples_length (l : List (ℚ × ℚ × ℚ)) :
    (embedTriples l).length = 3 * l.length := by
  simp [embedTriples, flattenTriples_length]

theorem sizeT_someTriple (a b : ℚ × ℚ × ℚ) :
    sizeT (someTriple a) (someTriple b) =
      someTriple (b.1 - a.1, b.2.1 - a.2.1, b.2.2 - a.2.2) := by
  simp [sizeT, someTriple, jsSub]

theorem maxDim3_someTriple (v : ℚ × ℚ × ℚ) :
    maxDim3 (someTriple v) = some (max (max v.1 v.2.1) v.2.2) := by
  simp [maxDim3, someTriple, jsMax]

theorem centerT_someTriple (a b : ℚ × ℚ × ℚ) :
    centerT (someTriple a) (someTriple b) =
      someTriple ((a.1 + b.1) * (1/2), (a.2.1 + b.2.1) * (1/2), (a.2.2 + b.2.2) * (1/2)) := by
  simp [centerT, someTriple, jsAdd, jsMul]

theorem bboxMinMax_embed (t : ℚ × ℚ × ℚ) (tr : List (ℚ × ℚ × ℚ)) :
    bboxMinMax (toTriples (embedTriples (t :: tr))) =
      (someTriple (tr.foldl qminT t), someTriple (tr.foldl qmaxT t)) := by
  rw [toTriples_embedTriples]
  simp only [List.map_cons, bboxMinMax, foldl_minT_some, foldl_maxT_some]

theorem bboxCenter_embed (t : ℚ × ℚ × ℚ) (tr : List (ℚ × ℚ × ℚ)) :
    bboxCenter (embedTriples (t :: tr)) =
      someTriple (((tr.foldl qminT t).1 + (tr.foldl qmaxT t).1) * (1/2),
        ((tr.foldl qminT t).2.1 + (tr.foldl qmaxT t).2.1) * (1/2),
        ((tr.foldl qminT t).2.2 + (tr.foldl qmaxT t).2.2) * (1/2)) := by
  unfold bboxCenter
  rw [bboxMinMax_embed, centerT_someTriple]

theorem bboxMaxDim_embed (t : ℚ × ℚ × ℚ) (tr : List (ℚ × ℚ × ℚ)) :
    bboxMaxDim (embedTriples (t :: tr)) =
      some (max (max ((tr.foldl qmaxT t).1 - (tr.foldl qminT t).1)
                     ((tr.foldl qmaxT t).2.1 - (tr.foldl qminT t).2.1))
                ((tr.foldl qmaxT t).2.2 - (tr.foldl qminT t).2.2)) := by
  unfold bboxMaxDim
  rw [bboxMinMax_embed, sizeT_someTriple, maxDim3_someTriple]

theorem map_transT_someTriple (c : ℚ × ℚ × ℚ) (s : ℚ) (l : List (ℚ × ℚ × ℚ)) :
    (l.map someTriple).map (transT (someTriple c) (some s)) =
      (l.map (qtransT c s)).map someTriple := by
  induction l with
  | nil => rfl
  | cons a as ih => simp only [List.map_cons, transT_someTriple, ih]

theorem max3_affine (a1 a2 a3 b1 b2 b3 c1 c2 c3 s : ℚ) (hs : 0 ≤ s) :
    max (max ((a1 - c1) * s - (b1 - c1) * s) ((a2 - c2) * s - (b2 - c2) * s))
        ((a3 - c3) * s - (b3 - c3) * s) =
      max (max (a1 - b1) (a2 - b2)) (a3 - b3) * s := by
  have h1 : ∀ a b c : ℚ, (a - c) * s - (b - c) * s = (a - b) * s := by
    intro a b c; ring
  rw [h1, h1, h1, ← max_mul_of_nonneg _ _ hs, ← max_mul_of_nonneg _ _ hs]

/-- C3 amended: the center-and-scale transform applied by parseVTKData to a
nonempty NaN-free line-segment buffer with positive bounding-box extent and
a positive target size M yields a buffer whose bounding-box center is the
origin and whose largest bounding-box dimension equals M exactly. (The
point-cloud fallback is returned untransformed, per the counterexample.) -/
theorem centerScale_bbox (M d : ℚ) (l : List (ℚ × ℚ × ℚ))
    (hne : l ≠ []) (hM : 0 < M)
    (hd : bboxMaxDim (embedTriples l) = some d) (hdpos : 0 < d) :
    bboxCenter (centerScale M (embedTriples l)) = (some 0, some 0, some 0) ∧
    bboxMaxDim (centerScale M (embedTriples l)) = some M := by
  obtain ⟨t, tr, rfl⟩ := List.exists_cons_of_ne_nil hne
  have hdval : max (max ((tr.foldl qmaxT t).1 - (tr.foldl qminT t).1)
      ((tr.foldl qmaxT t).2.1 - (tr.foldl qminT t).2.1))
      ((tr.foldl qmaxT t).2.2 - (tr.foldl qminT t).2.2) = d :=
    Option.some.inj ((bboxMaxDim_embed t tr).symm.trans hd)
  have hdne : d ≠ 0 := ne_of_gt hdpos
  have hscnn : (0 : ℚ) ≤ M / d := le_of_lt (div_pos hM hdpos)
  set C : ℚ × ℚ × ℚ :=
    (((tr.foldl qminT t).1 + (tr.foldl qmaxT t).1) * (1/2),
     ((tr.foldl qminT t).2.1 + (tr.foldl qmaxT t).2.1) * (1/2),
     ((tr.foldl qminT t).2.2 + (tr.foldl qmaxT t).2.2) * (1/2)) with hC
  have hout : centerScale M (embedTriples (t :: tr)) =
      embedTriples ((t :: tr).map (qtransT C (M / d))) := by
    unfold centerScale
    rw [toTriples_embedTriples]
    simp only [List.map_cons]
    unfold bboxTransform
    simp only [foldl_minT_some, foldl_maxT_some, centerT_someTriple, sizeT_someTriple,
      maxDim3_someTriple, hdval, jsDiv]
    rw [if_neg hdne]
    rw [← List.map_cons someTriple t tr, map_transT_someTriple]
    have hdrop : (embedTriples (t :: tr)).drop (3 * ((t :: tr).map someTriple).length) = [] := by
      apply List.drop_eq_nil_of_le
      simp [embedTriples_length]
    rw [hdrop, List.append_nil]
    rw [hC]
    rfl
  rw [hout, List.map_cons]
  constructor
  · rw [bboxCenter_embed,
      foldl_qminT_affine C (M / d) hscnn tr t, foldl_qmaxT_affine C (M / d) hscnn tr t]
    simp only [qtransT, someTriple, hC, Prod.mk.injEq, Option.some.injEq]
    refine ⟨by ring, by ring, by ring⟩
  · rw [bboxMaxDim_embed,
      foldl_qminT_affine C (M / d) hscnn tr t, foldl_qmaxT_affine C (M / d) hscnn tr t]
    simp only [qtransT]
    rw [max3_affine _ _ _ _ _ _ _ _ _ _ hscnn, hdval, Option.some.injEq]
    field_simp

/-- C3 counterexample: the claim extends the center-and-scale guarantee to
the point-cloud fallback, but parseVTKData returns the fallback geometry
before the transform runs. A file declaring two points (1,1,1) and (3,1,1)
and no connectivity yields the point cloud of the raw parsed points: its
bounding-box center is (2,1,1), not the origin, and its largest dimension
is 2, not the configured modelSize 420. -/
theorem fallback_point_cloud_untransformed :
    (parseVTKData ("POINTS 2 float\n1 1 1\n3 1 1".toList) 420 false).isPointCloud = true ∧
    (parseVTKData ("POINTS 2 float\n1 1 1\n3 1 1".toList) 420 false).geometry =
      some [some 1, some 1, some 1, some 3, some 1, some 1] ∧
    bboxCenter ((parseVTKData ("POINTS 2 float\n1 1 1\n3 1 1".toList) 420
        false).geometry.getD []) = (some 2, some 1, some 1) ∧
    bboxMaxDim ((parseVTKData ("POINTS 2 float\n1 1 1\n3 1 1".toList) 420
        false).geometry.getD []) = some 2 := by
  refine ⟨rfl, ?_, ?_, ?_⟩ <;>
    norm_num +decide [parseVTKData, parseVTKState, parseLine, parseDataLine, pointsBlock, scalarsBlock, cellsBlock, cellCutoff, initPState, jsSplit,
      jsSplitAux, jsTrim, jsIsWs, jsStartsWith, kwPoints, kwCells, kwPolygons, kwLines,
      kwPointData, kwScalars, kwLookupTable, kwCellTypes, hasConnHeader, numberTokens,
      jsParseFloat, jsParseInt, takeDigits, digitVal, digitsToNat, decimalValue,
      ltCount, cellIndices, cellPushes, cellStep, List.isPrefixOf, bboxCenter,
      bboxMaxDim, bboxMinMax, toTriples, minT, maxT, jsMin, jsMax, centerT, sizeT,
      maxDim3, jsAdd, jsSub, jsMul]

/-- Witness for the amended C3: the transform on the concrete two-vertex
buffer (0,0,0), (2,0,0) with modelSize 420 produces a buffer whose largest
bounding-box dimension is exactly 420. -/
theorem centerScale_bbox_witness :
    bboxMaxDim (centerScale 420 (embedTriples [(0, 0, 0), (2, 0, 0)])) = some 420 :=
  (centerScale_bbox 420 2 [(0, 0, 0), (2, 0, 0)] (by simp) (by norm_num)
    (by norm_num [bboxMaxDim, embedTriples, someTriple, flattenTriples, toTriples,
      bboxMinMax, minT, maxT, jsMin, jsMax, sizeT, jsSub, maxDim3, min_def, max_def])
    (by norm_num)).2

/-- C4: pressureToColor is a pure function — identical arguments give
identical results; on a proper range (min < max) the minimum maps to the
low anchor color (0.23, 0.70, 0.27) and the maximum maps to the high anchor
color (0.56, 0.12, 0); and when min = max the normalization yields the fixed
value 0.5 for every input pressure, so the output does not depend on the
pressure at all. -/
theorem pressureToColor_spec (p q mn mx : ℝ) (hlt : mn < mx) :
    pressureToColor p mn mx = pressureToColor p mn mx ∧
    pressureToColor mn mn mx = (0.23, 0.70, 0.27) ∧
    pressureToColor mx mn mx = (0.56, 0.12, 0) ∧
    pressureLinear p mn mn = 0.5 ∧
    pressureToColor p mn mn = pressureToColor q mn mn := by
  have h04 : (0.4 : ℝ) ≠ 0 := by norm_num
  refine ⟨rfl, ?_, ?_, ?_, ?_⟩
  · have hlin : pressureLinear mn mn mx = 0 := by
      simp [pressureLinear, hlt]
    rw [pressureToColor, hlin, Real.zero_rpow h04]
    norm_num
  · have hlin : pressureLinear mx mn mx = 1 := by
      rw [pressureLinear, if_pos hlt]
      exact div_self (sub_ne_zero.mpr (ne_of_gt hlt))
    rw [pressureToColor, hlin, Real.one_rpow]
    norm_num
  · rw [pressureLinear, if_neg (lt_irrefl mn)]
  · simp [pressureToColor, pressureLinear]

/-- Witness for C4: on the range 0 to 1 the minimum pressure is colored with
the low anchor. -/
theorem pressureToColor_spec_witness :
    pressureToColor 0 0 1 = (0.23, 0.70, 0.27) :=
  (pressureToColor_spec (1/4) (3/4) 0 1 (by norm_num)).2.1

/-- C5: the auto-mode adjustment tick. When the smoothed rate is below 20 or
the low-frame counter exceeds 10 every LOD variant degrades — segment count
to max(3, floor(0.7x)), radius scale times 0.8 — and the batch size becomes
max(500, floor(0.8x)); when the smoothed rate exceeds 45 and the counter is
zero every variant improves — segment count to min(8, floor(1.1x)), radius
scale to min(1, 1.05x) — and the batch size becomes min(2000, floor(1.1x));
otherwise nothing changes. Outside auto mode the tick changes nothing, and
setPerformanceMode applies the fixed high / medium / low presets. -/
theorem adjustPerformanceMode_spec (st : LoaderState) (fps : ℚ) (cnt : ℤ) :
    (st.performanceMode = "auto" → (fps < 20 ∨ 10 < cnt) →
      (∀ (i : ℕ) (l : LodLevel), st.lodLevels[i]? = some l →
        (adjustPerformanceMode st fps cnt).lodLevels[i]? =
          some ({ distance := l.distance,
                  segments := max 3 ⌊(l.segments : ℚ) * (7/10)⌋,
                  radiusScale := l.radiusScale * (8/10) } : LodLevel)) ∧
      (adjustPerformanceMode st fps cnt).maxSegmentsPerBatch =
        max 500 ⌊(st.maxSegmentsPerBatch : ℚ) * (8/10)⌋) ∧
    (st.performanceMode = "auto" → ¬(fps < 20 ∨ 10 < cnt) → 45 < fps → cnt = 0 →
      (∀ (i : ℕ) (l : LodLevel), st.lodLevels[i]? = some l →
        (adjustPerformanceMode st fps cnt).lodLevels[i]? =
          some ({ distance := l.distance,
                  segments := min 8 ⌊(l.segments : ℚ) * (11/10)⌋,
                  radiusScale := min 1 (l.radiusScale * (105/100)) } : LodLevel)) ∧
      (adjustPerformanceMode st fps cnt).maxSegmentsPerBatch =
        min 2000 ⌊(st.maxSegmentsPerBatch : ℚ) * (11/10)⌋) ∧
    (st.performanceMode = "auto" → ¬(fps < 20 ∨ 10 < cnt) → ¬(45 < fps ∧ cnt = 0) →
      adjustPerformanceMode st fps cnt = st) ∧
    (st.performanceMode ≠ "auto" → adjustPerformanceMode st fps cnt = st) ∧
    ((setPerformanceMode st "high").lodLevels = highLodLevels ∧
      (setPerformanceMode st "high").maxSegmentsPerBatch = 1500) ∧
    ((setPerformanceMode st "medium").lodLevels = mediumLodLevels ∧
      (setPerformanceMode st "medium").maxSegmentsPerBatch = 1000) ∧
    ((setPerformanceMode st "low").lodLevels = lowLodLevels ∧
      (setPerformanceMode st "low").maxSegmentsPerBatch = 500) ∧
    (∀ mode, (setPerformanceMode st mode).performanceMode = mode) := by
  refine ⟨?_, ?_, ?_, ?_, ⟨rfl, rfl⟩, ⟨rfl, rfl⟩, ⟨rfl, rfl⟩, ?_⟩
  · intro hmode hcond
    have hbranch : adjustPerformanceMode st fps cnt =
        { st with lodLevels := st.lodLevels.map degradeLevel,
                  maxSegmentsPerBatch := max 500 ⌊(st.maxSegmentsPerBatch : ℚ) * (8/10)⌋ } := by
      rw [adjustPerformanceMode, if_neg (by simp [hmode]), if_pos hcond]
    refine ⟨?_, by rw [hbranch]⟩
    intro i l hl
    rw [hbranch]
    simp only [List.getElem?_map, hl, Option.map_some]
    rfl
  · intro hmode hnot hfps hcnt
    have hbranch : adjustPerformanceMode st fps cnt =
        { st with lodLevels := st.lodLevels.map improveLevel,
                  maxSegmentsPerBatch := min 2000 ⌊(st.maxSegmentsPerBatch : ℚ) * (11/10)⌋ } := by
      rw [adjustPerformanceMode, if_neg (by simp [hmode]), if_neg hnot,
        if_pos ⟨hfps, hcnt⟩]
    refine ⟨?_, by rw [hbranch]⟩
    intro i l hl
    rw [hbranch]
    simp only [List.getElem?_map, hl, Option.map_some]
    rfl
  · intro hmode hnot1 hnot2
    rw [adjustPerformanceMode, if_neg (by simp [hmode]), if_neg hnot1, if_neg hnot2]
  · intro hne
    rw [adjustPerformanceMode, if_pos hne]
  · intro mode
    rw [setPerformanceMode]
    by_cases h1 : mode = "high"
    · simp [h1]
    · by_cases h2 : mode = "medium"
      · simp [h1, h2]
      · by_cases h3 : mode = "low"
        · simp [h1, h2, h3]
        · simp [h1, h2, h3]

/-- Witness for C5: one degrade tick from the initial state at 10 fps
shrinks the batch size to max(500, floor(0.8 * 1000)) = 800. -/
theorem adjustPerformanceMode_spec_witness :
    (adjustPerformanceMode initialLoaderState 10 0).maxSegmentsPerBatch =
      max 500 ⌊(initialLoaderState.maxSegmentsPerBatch : ℚ) * (8/10)⌋ :=
  ((adjustPerformanceMode_spec initialLoaderState 10 0).1 rfl
    (Or.inl (by norm_num))).2

/-! Helper lemmas for the LOD monotonicity invariant. -/

theorem lodStepOk_degrade (a b : LodLevel) (h : lodStepOk a b) :
    lodStepOk (degradeLevel a) (degradeLevel b) := by
  obtain ⟨h1, h2, h3⟩ := h
  refine ⟨h1, ?_, ?_⟩
  · apply max_le_max le_rfl
    apply Int.floor_le_floor
    exact mul_le_mul_of_nonneg_right (by exact_mod_cast h2) (by norm_num)
  · exact mul_le_mul_of_nonneg_right h3 (by norm_num)

theorem lodStepOk_improve (a b : LodLevel) (h : lodStepOk a b) :
    lodStepOk (improveLevel a) (improveLevel b) := by
  obtain ⟨h1, h2, h3⟩ := h
  refine ⟨h1, ?_, ?_⟩
  · apply min_le_min le_rfl
    apply Int.floor_le_floor
    exact mul_le_mul_of_nonneg_right (by exact_mod_cast h2) (by norm_num)
  · apply min_le_min le_rfl
    exact mul_le_mul_of_nonneg_right h3 (by norm_num)

theorem lodOrdered_initial : lodOrdered initialLodLevels := by
  simp only [lodOrdered, initialLodLevels, List.chain'_cons, List.chain'_singleton,
    lodStepOk, distLt, and_true]
  norm_num

theorem lodOrdered_high : lodOrdered highLodLevels := by
  simp only [lodOrdered, highLodLevels, List.chain'_cons, List.chain'_singleton,
    lodStepOk, distLt, and_true]
  norm_num

theorem lodOrdered_medium : lodOrdered mediumLodLevels := by
  simp only [lodOrdered, mediumLodLevels, List.chain'_cons, List.chain'_singleton,
    lodStepOk, distLt, and_true]
  norm_num

theorem lodOrdered_low : lodOrdered lowLodLevels := by
  simp only [lodOrdered, lowLodLevels, List.chain'_cons, List.chain'_singleton,
    lodStepOk, distLt, and_true]
  norm_num

/-- C6: every reachable LOD configuration — the constructor's initial list,
each fixed preset, and anything produced by any sequence of
setPerformanceMode calls and auto-adjustment ticks — keeps activation
distance strictly increasing while segment count and radius scale are
non-increasing along the variant list. -/
theorem lod_monotone_invariant :
    lodOrdered initialLodLevels ∧ lodOrdered highLodLevels ∧
    lodOrdered mediumLodLevels ∧ lodOrdered lowLodLevels ∧
    (∀ st : LoaderState, ReachableLoaderState st → lodOrdered st.lodLevels) := by
  refine ⟨lodOrdered_initial, lodOrdered_high, lodOrdered_medium, lodOrdered_low, ?_⟩
  intro st h
  induction h with
  | init => exact lodOrdered_initial
  | set st' mode hst ih =>
      rw [setPerformanceMode]
      by_cases h1 : mode = "high"
      · simpa [h1] using lodOrdered_high
      · by_cases h2 : mode = "medium"
        · simpa [h1, h2] using lodOrdered_medium
        · by_cases h3 : mode = "low"
          · simpa [h1, h2, h3] using lodOrdered_low
          · simpa [h1, h2, h3] using ih
  | adjust st' fps cnt hst ih =>
      rw [adjustPerformanceMode]
      by_cases h1 : st'.performanceMode ≠ "auto"
      · rw [if_pos h1]; exact ih
      · rw [if_neg h1]
        by_cases h2 : fps < 20 ∨ 10 < cnt
        · rw [if_pos h2]
          exact List.chain'_map_of_chain' degradeLevel lodStepOk_degrade ih
        · rw [if_neg h2]
          by_cases h3 : 45 < fps ∧ cnt = 0
          · rw [if_pos h3]
            exact List.chain'_map_of_chain' improveLevel lodStepOk_improve ih
          · rw [if_neg h3]; exact ih

/-- Witness for C6: the invariant instantiated at the reachable initial
loader state. -/
theorem lod_monotone_invariant_witness :
    lodOrdered initialLoaderState.lodLevels :=
  lod_monotone_invariant.2.2.2.2 initialLoaderState ReachableLoaderState.init

/-! Helper lemmas for the point-cloud fallback claim. -/

theorem pointsBlock_cvs (st : PState) (line : JStr) :
    (pointsBlock st line).isReadingCells = st.isReadingCells ∧
    (pointsBlock st line).vertices = st.vertices ∧
    (pointsBlock st line).segments = st.segments := by
  unfold pointsBlock
  split <;> exact ⟨rfl, rfl, rfl⟩

theorem scalarsBlock_cvs (st : PState) (line : JStr) :
    (scalarsBlock st line).isReadingCells = st.isReadingCells ∧
    (scalarsBlock st line).vertices = st.vertices ∧
    (scalarsBlock st line).segments = st.segments := by
  unfold scalarsBlock
  split <;> exact ⟨rfl, rfl, rfl⟩

theorem cellsBlock_of_noCells (tube : Bool) (st : PState) (line : JStr)
    (h : st.isReadingCells = false) :
    cellsBlock tube st line = st := by
  unfold cellsBlock
  rw [if_neg]
  intro hc
  simp [h] at hc

theorem cellCutoff_cvs (st : PState) (line : JStr) :
    (st.isReadingCells = false → (cellCutoff st line).isReadingCells = false) ∧
    (cellCutoff st line).vertices = st.vertices ∧
    (cellCutoff st line).segments = st.segments := by
  unfold cellCutoff
  split
  · exact ⟨fun _ => rfl, rfl, rfl⟩
  · exact ⟨fun h => h, rfl, rfl⟩

theorem parseDataLine_noCells (tube : Bool) (st : PState) (line : JStr)
    (h1 : st.isReadingCells = false) (h2 : st.vertices = []) (h3 : st.segments = []) :
    (parseDataLine tube st line).isReadingCells = false ∧
    (parseDataLine tube st line).vertices = [] ∧
    (parseDataLine tube st line).segments = [] := by
  unfold parseDataLine
  obtain ⟨hc1, hv1, hs1⟩ := pointsBlock_cvs st line
  obtain ⟨hc2, hv2, hs2⟩ := scalarsBlock_cvs (pointsBlock st line) line
  have hcells : (scalarsBlock (pointsBlock st line) line).isReadingCells = false := by
    rw [hc2, hc1, h1]
  rw [cellsBlock_of_noCells tube _ line hcells]
  obtain ⟨hc4, hv4, hs4⟩ := cellCutoff_cvs (scalarsBlock (pointsBlock st line) line) line
  refine ⟨hc4 hcells, ?_, ?_⟩
  · rw [hv4, hv2, hv1, h2]
  · rw [hs4, hs2, hs1, h3]

theorem parseLine_noConn (tube : Bool) (st : PState) (l : JStr)
    (hl : hasConnHeader (jsTrim l) = false)
    (h1 : st.isReadingCells = false) (h2 : st.vertices = []) (h3 : st.segments = []) :
    (parseLine tube st l).isReadingCells = false ∧
    (parseLine tube st l).vertices = [] ∧
    (parseLine tube st l).segments = [] := by
  unfold parseLine
  dsimp only
  split
  · exact ⟨rfl, h2, h3⟩
  · split
    · next hconn => simp [hl] at hconn
    · split
      · exact ⟨rfl, h2, h3⟩
      · split
        · exact ⟨rfl, h2, h3⟩
        · split
          · exact ⟨rfl, h2, h3⟩
          · exact parseDataLine_noCells tube st (jsTrim l) h1 h2 h3

theorem foldl_parseLine_noConn (tube : Bool) (lines : List JStr)
    (h : ∀ l ∈ lines, hasConnHeader (jsTrim l) = false) :
    ∀ st : PState, st.isReadingCells = false → st.vertices = [] → st.segments = [] →
      (lines.foldl (parseLine tube) st).isReadingCells = false ∧
      (lines.foldl (parseLine tube) st).vertices = [] ∧
      (lines.foldl (parseLine tube) st).segments = [] := by
  induction lines with
  | nil => intro st h1 h2 h3; exact ⟨h1, h2, h3⟩
  | cons l ls ih =>
      intro st h1 h2 h3
      have hstep := parseLine_noConn tube st l (h l (by simp)) h1 h2 h3
      exact ih (fun x hx => h x (by simp [hx])) _ hstep.1 hstep.2.1 hstep.2.2

/-- C7: a fetched file with no connectivity section whose POINTS section
supplies 10 well-formed points (30 parsed coordinates) loads successfully as
a point cloud: loadVTKFile returns the success object with isPointCloud true
and a Points mesh holding exactly the 30 raw parsed coordinates — 10 vertex
positions, untransformed. -/
theorem loadVTKFile_pointcloud_fallback (resp : JsResponse) (M : ℚ)
    (hok : resp.ok = true)
    (hnoconn : ∀ l ∈ jsSplit resp.body '\n', hasConnHeader (jsTrim l) = false)
    (hpts : (parseVTKState resp.body false).points.length = 30) :
    loadVTKFile resp M false =
      LoadResult.success (VTKMesh.points ((parseVTKState resp.body false).points)) true ∧
    ((parseVTKState resp.body false).points).length / 3 = 10 := by
  have hinv := foldl_parseLine_noConn false (jsSplit resp.body '\n') hnoconn
    initPState rfl rfl rfl
  have hverts : (parseVTKState resp.body false).vertices = [] := hinv.2.1
  have hpne : (parseVTKState resp.body false).points ≠ [] := by
    intro hnil
    rw [hnil] at hpts
    simp at hpts
  have hparse : parseVTKData resp.body M false =
      { geometry := some ((parseVTKState resp.body false).points),
        isPointCloud := true, segments := none, radii := none } := by
    rw [parseVTKData]
    rw [if_neg (by simp), if_pos ⟨hverts, hpne⟩]
  constructor
  · rw [loadVTKFile]
    have hfetch : fetchVTKFile resp = Except.ok resp.body := by
      rw [fetchVTKFile, if_neg (by simp [hok])]
    rw [hfetch]
    simp only [hparse, createVTKMesh]
    rfl
  · rw [hpts]

/-- Witness for C7: a concrete four-line file declaring POINTS 10 and
supplying 30 coordinates with no connectivity section loads as a point
cloud. -/
theorem loadVTKFile_pointcloud_fallback_witness :
    loadVTKFile
      { ok := true, status := 200, statusText := "OK".toList,
        body := ("POINTS 10 float\n0 0 0 1 1 1 2 2 2 3 3 3\n4 4 4 5 5 5 6 6 6 7 7 7\n8 8 8 9 9 9").toList }
      420 false =
    LoadResult.success
      (VTKMesh.points ((parseVTKState
        ("POINTS 10 float\n0 0 0 1 1 1 2 2 2 3 3 3\n4 4 4 5 5 5 6 6 6 7 7 7\n8 8 8 9 9 9").toList
        false).points)) true :=
  (loadVTKFile_pointcloud_fallback
    { ok := true, status := 200, statusText := "OK".toList,
      body := ("POINTS 10 float\n0 0 0 1 1 1 2 2 2 3 3 3\n4 4 4 5 5 5 6 6 6 7 7 7\n8 8 8 9 9 9").toList }
    420 rfl (by decide) (by rfl)).1

/-- C8: a fetch with a non-ok response makes loadVTKFile return the
structured failure object whose error message records the HTTP status —
the thrown error is caught at the try/catch boundary, so the embedded
loadVTKFile is a total function of the response and nothing escapes to the
caller. The second conjunct spells out the message layout: the literal
HTTP prefix, the decimal digits of the status, and the status text. -/
theorem loadVTKFile_fetch_failure (resp : JsResponse) (M : ℚ) (tube : Bool)
    (hbad : resp.ok = false) :
    loadVTKFile resp M tube =
      LoadResult.failure { message := httpErrorMessage resp.status resp.statusText } ∧
    httpErrorMessage resp.status resp.statusText =
      ("HTTP ".toList) ++ (Nat.toDigits 10 resp.status) ++ (": ".toList) ++ resp.statusText := by
  constructor
  · rw [loadVTKFile, fetchVTKFile, if_pos hbad]
  · rfl

/-- Witness for C8: a 404 response produces the structured failure. -/
theorem loadVTKFile_fetch_failure_witness :
    loadVTKFile
      { ok := false, status := 404, statusText := "Not Found".toList, body := [] }
      420 false =
      LoadResult.failure { message := httpErrorMessage 404 ("Not Found".toList) } :=
  (loadVTKFile_fetch_failure
    { ok := false, status := 404, statusText := "Not Found".toList, body := [] }
    420 false rfl).1

/-- C9: the falsy-coalescing radius default. A per-point radius entry that
is missing (out of bounds), NaN, or exactly 0 is replaced by 0.1 when the
parser builds a tube segment, so a segment whose two file-supplied radii are
both exactly 0 (or absent) carries radius 0.1 at both ends; with the default
configuration (radius scale 1, 8 radial segments) such a segment of
non-degenerate length is not dropped — it is rendered as a tube with radius
0.1 at both ends. -/
theorem zero_radius_coalesced_to_default (points radii : List JsNum) (idx1 idx2 : ℤ)
    (h1 : jsIndex radii idx1 = none ∨ jsIndex radii idx1 = some 0)
    (h2 : jsIndex radii idx2 = none ∨ jsIndex radii idx2 = some 0)
    (hb : idx1 * 3 + 2 < (points.length : ℤ) ∧ idx2 * 3 + 2 < (points.length : ℤ))
    (s : Seg)
    (hsr : s.startRadius = some (1/10)) (her : s.endRadius = some (1/10))
    (hlen : jsLt (distSqT s.startP s.endP) (some (1/1000000)) = false) :
    cellStep true points radii idx1 idx2 =
      ([], [{ startP := pointTriple points idx1, endP := pointTriple points idx2,
              startRadius := some (1/10), endRadius := some (1/10) }]) ∧
    segmentTubeContribution 1 8 s =
      [{ radiusTop := some (1/10), radiusBottom := some (1/10),
         heightSq := distSqT s.startP s.endP, radialSegments := 8,
         midpoint := midT s.startP s.endP }] := by
  constructor
  · rw [cellStep, if_pos hb, if_pos rfl]
    have e1 : jsOrDefault (jsIndex radii idx1) (1/10) = 1/10 := by
      rcases h1 with h | h <;> rw [h] <;> simp [jsOrDefault]
    have e2 : jsOrDefault (jsIndex radii idx2) (1/10) = 1/10 := by
      rcases h2 with h | h <;> rw [h] <;> simp [jsOrDefault]
    rw [e1, e2]
  · rw [segmentTubeContribution]
    rw [if_neg (by rw [hlen]; simp)]
    rw [hsr, her]
    have hr : jsMul (some ((1 : ℚ)/10)) (some 1) = some (1/10) := by
      norm_num [jsMul]
    rw [hr]
    dsimp only
    have hmax : jsMax (some ((1 : ℚ)/10)) (some (1/10)) = some (1/10) := by
      norm_num [jsMax]
    rw [hmax]
    rw [if_neg (by norm_num [jsLt])]
    rw [createVariableRadiusTube]
    rw [if_neg ?_]
    · rfl
    · rintro (hc | ⟨hc1, hc2⟩)
      · rw [hlen] at hc; exact absurd hc (by simp)
      · norm_num [jsLt] at hc1

/-- Witness for C9: two points at distance 1 whose stored radii are both
exactly 0 give a parsed segment with radius 0.1 at each end. -/
theorem zero_radius_coalesced_to_default_witness :
    cellStep true [some 0, some 0, some 0, some 1, some 0, some 0]
      [some 0, some 0] 0 1 =
    ([], [{ startP := pointTriple [some 0, some 0, some 0, some 1, some 0, some 0] 0,
            endP := pointTriple [some 0, some 0, some 0, some 1, some 0, some 0] 1,
            startRadius := some (1/10), endRadius := some (1/10) }]) :=
  (zero_radius_coalesced_to_default
    [some 0, some 0, some 0, some 1, some 0, some 0] [some 0, some 0] 0 1
    (Or.inr rfl) (Or.inr rfl) (by decide)
    { startP := (some 0, some 0, some 0), endP := (some 1, some 0, some 0),
      startRadius := some (1/10), endRadius := some (1/10) }
    rfl rfl (by norm_num [distSqT, jsSub, jsMul, jsAdd, jsLt])).1

/-! Helper lemmas for the manual geometry merge. -/

theorem mergedIndicesAux_map (gs : List BufGeom) :
    ∀ off : ℕ, mergedIndicesAux true gs off =
      (mergedIndicesAux false gs off).map (fun i => i % 65536) := by
  induction gs with
  | nil => intro off; rfl
  | cons g gs ih =>
      intro off
      unfold mergedIndicesAux
      match hp : g.position with
      | none =>
          dsimp only
          exact ih off
      | some p =>
          dsimp only
          rw [List.map_append, ih (off + p.length / 3)]
          congr 1
          match hi : g.index with
          | none => rfl
          | some idx =>
              dsimp only
              rw [List.map_map]
              apply List.map_congr_left
              intro i hi2
              simp

theorem mergedIndicesAux_nowrap (gs : List BufGeom) :
    ∀ off : ℕ,
      (∀ g ∈ gs, ∀ i ∈ g.index.getD [], i < vertCount g) →
      off + totalVertices gs ≤ 65536 →
      mergedIndicesAux true gs off = mergedIndicesAux false gs off := by
  induction gs with
  | nil => intro off _ _; rfl
  | cons g gs ih =>
      intro off hvalid htot
      have htail : ∀ g2 ∈ gs, ∀ i ∈ g2.index.getD [], i < vertCount g2 :=
        fun g2 hg2 => hvalid g2 (by simp [hg2])
      have htotcons : totalVertices (g :: gs) = vertCount g + totalVertices gs := by
        simp [totalVertices]
      unfold mergedIndicesAux
      match hp : g.position with
      | none =>
          dsimp only
          have hvc : vertCount g = 0 := by simp [vertCount, hp]
          apply ih off htail
          omega
      | some p =>
          dsimp only
          have hvc : vertCount g = p.length / 3 := by simp [vertCount, hp]
          have hrest : (off + p.length / 3) + totalVertices gs ≤ 65536 := by omega
          rw [ih (off + p.length / 3) htail hrest]
          congr 1
          match hi : g.index with
          | none => rfl
          | some idx =>
              dsimp only
              apply List.map_congr_left
              intro i hi2
              have hiv : i < vertCount g := hvalid g (by simp) i (by simp [hi, hi2])
              have hlt : i + off < 65536 := by omega
              simp [Nat.mod_eq_of_lt hlt]

/-- C10: manualMergeGeometries. The merged position buffer is the
concatenation of the input position attributes. The merged triangle indices
live in a Uint16 array: in general every stored index is the offset-shifted
input index reduced modulo 2^16 (third conjunct, with no hypotheses on the
inputs); and whenever the total vertex count is at most 2^16 and each input
index addresses a vertex of its own geometry, no wrap occurs — every stored
index equals the input index plus the cumulative vertex offset of its source
geometry (first conjunct). -/
theorem manualMergeGeometries_spec (gs : List BufGeom)
    (hvalid : ∀ g ∈ gs, ∀ i ∈ g.index.getD [], i < vertCount g)
    (htot : totalVertices gs ≤ 65536) :
    mergedIndices gs = mergedIndicesNoWrap gs ∧
    mergedPositions gs = (gs.map (fun g => g.position.getD [])).flatten ∧
    (∀ gs2 : List BufGeom,
      mergedIndices gs2 = (mergedIndicesNoWrap gs2).map (fun i => i % 65536)) := by
  refine ⟨?_, ?_, ?_⟩
  · unfold mergedIndices mergedIndicesNoWrap
    rw [mergedIndicesAux_nowrap gs 0 hvalid (by omega)]
  · induction gs with
    | nil => rfl
    | cons g gs2 ih =>
        have htail : ∀ g2 ∈ gs2, ∀ i ∈ g2.index.getD [], i < vertCount g2 :=
          fun g2 hg2 => hvalid g2 (by simp [hg2])
        have htot2 : totalVertices gs2 ≤ 65536 := by
          have : totalVertices (g :: gs2) = vertCount g + totalVertices gs2 := by
            simp [totalVertices]
          omega
        simp [mergedPositions, ih htail htot2]
  · intro gs2
    unfold mergedIndices mergedIndicesNoWrap
    rw [mergedIndicesAux_map gs2 0]
    rw [List.map_append, List.map_replicate]
    simp [List.length_map]

/-- Witness for C10: merging two one-triangle geometries of three vertices
each; the second geometry's indices are shifted by its cumulative vertex
offset 3 and no 16-bit wrap occurs. -/
theorem manualMergeGeometries_spec_witness :
    mergedIndices
      [{ position := some (List.replicate 9 (0 : ℚ)), normal := none, index := some [0, 1, 2] },
       { position := some (List.replicate 9 (0 : ℚ)), normal := none, index := some [0, 1, 2] }] =
    mergedIndicesNoWrap
      [{ position := some (List.replicate 9 (0 : ℚ)), normal := none, index := some [0, 1, 2] },
       { position := some (List.replicate 9 (0 : ℚ)), normal := none, index := some [0, 1, 2] }] :=
  (manualMergeGeometries_spec
    [{ position := some (List.replicate 9 (0 : ℚ)), normal := none, index := some [0, 1, 2] },
     { position := some (List.replicate 9 (0 : ℚ)), normal := none, index := some [0, 1, 2] }]
    (by decide) (by decide)).1
